import Mathlib

/-!
Verification of the weather MCP server core (src/simple-mcp-server.ts):
JSON-RPC dispatcher, tool registry, input validation and upstream error
mapping, shallowly embedded in Lean.

Modelling conventions:
* JSON values are `JsonVal`. JSON numbers are modelled as `Int`; every
  number appearing in the verified claims is an integer. Strings use
  Lean `String`.
* JavaScript `undefined` is modelled as `Option.none` wherever a value
  may be absent (object fields, request ids, function arguments).
* The HTTP fetch layer is a function parameter; the rest of the pipeline
  is translated directly from the source.
-/

namespace WeatherMCP

/-- JSON values, as produced by `JSON.parse` / consumed by `JSON.stringify`.
Numbers are restricted to integers (all values in the verified behaviour
are integral). -/
inductive JsonVal where
  | str (s : String)
  | num (n : Int)
  | bool (b : Bool)
  | null
  | arr (elems : List JsonVal)
  | obj (fields : List (String × JsonVal))

/-- The left-brace character, written via its code point. -/
def lbrace : Char := Char.ofNat 123

/-- The right-brace character, written via its code point. -/
def rbrace : Char := Char.ofNat 125

/-- Escape a single character for a JSON string literal. -/
def escapeChar (c : Char) : String :=
  if c = '\"' then "\\\""
  else if c = '\\' then "\\\\"
  else if c = '\n' then "\\n"
  else if c = '\t' then "\\t"
  else if c = '\r' then "\\r"
  else String.singleton c

/-- Quote a string as a JSON string literal. -/
def quoteJson (s : String) : String :=
  "\"" ++ String.join (s.toList.map escapeChar) ++ "\""

/-- `n` space characters. -/
def spaces (n : Nat) : String := String.mk (List.replicate n ' ')

mutual
/-- `JSON.stringify(v, null, 2)` at nesting depth `d`. -/
def stringifyVal (d : Nat) : JsonVal → String
  | JsonVal.str s => quoteJson s
  | JsonVal.num n => toString n
  | JsonVal.bool b => if b then "true" else "false"
  | JsonVal.null => "null"
  | JsonVal.arr [] => "[]"
  | JsonVal.arr (x :: xs) =>
      "[\n" ++ String.intercalate ",\n" (stringifyItems (d + 1) (x :: xs)) ++
        "\n" ++ spaces (2 * d) ++ "]"
  | JsonVal.obj [] => "\x7b\x7d"
  | JsonVal.obj (f :: fs) =>
      "\x7b\n" ++ String.intercalate ",\n" (stringifyFields (d + 1) (f :: fs)) ++
        "\n" ++ spaces (2 * d) ++ "\x7d"

/-- Stringify array elements, each on its own indented line. -/
def stringifyItems (d : Nat) : List JsonVal → List String
  | [] => []
  | x :: xs => (spaces (2 * d) ++ stringifyVal d x) :: stringifyItems d xs

/-- Stringify object fields, each on its own indented line. -/
def stringifyFields (d : Nat) : List (String × JsonVal) → List String
  | [] => []
  | (k, v) :: fs =>
      (spaces (2 * d) ++ quoteJson k ++ ": " ++ stringifyVal d v) :: stringifyFields d fs
end

/-- `JSON.stringify(v, null, 2)` as used at `src/simple-mcp-server.ts:173`. -/
def jsonStringify (v : JsonVal) : String := stringifyVal 0 v

/-- Skip JSON whitespace. -/
def skipWs : List Char → List Char
  | c :: cs => if c = ' ' ∨ c = '\n' ∨ c = '\t' ∨ c = '\r' then skipWs cs else c :: cs
  | [] => []

/-- Decode one JSON string escape character. -/
def decodeEscape : Char → Option String
  | '\"' => some "\""
  | '\\' => some "\\"
  | '/' => some "/"
  | 'n' => some "\n"
  | 't' => some "\t"
  | 'r' => some "\r"
  | 'b' => some (String.singleton (Char.ofNat 8))
  | 'f' => some (String.singleton (Char.ofNat 12))
  | _ => none

/-- Parse the body of a JSON string literal (after the opening quote),
returning the decoded string and the input following the closing quote. -/
def parseStringBody : List Char → Option (String × List Char)
  | '\"' :: rest => some ("", rest)
  | '\\' :: c :: rest =>
      (decodeEscape c).bind fun esc =>
        (parseStringBody rest).map fun p => (esc ++ p.1, p.2)
  | c :: rest => (parseStringBody rest).map fun p => (String.singleton c ++ p.1, p.2)
  | [] => none

/-- Take a maximal run of decimal digits. -/
def takeDigits : List Char → (List Char × List Char)
  | c :: cs =>
      if c.isDigit then
        match takeDigits cs with
        | (ds, rest) => (c :: ds, rest)
      else ([], c :: cs)
  | [] => ([], [])

/-- Decimal digits to a natural number. -/
def digitsToNat (ds : List Char) : Nat :=
  ds.foldl (fun a c => a * 10 + (c.toNat - 48)) 0

/-- Parse an integer JSON number (this model rejects fractional and
exponent forms; no verified behaviour depends on them). -/
def parseNumber : List Char → Option (JsonVal × List Char)
  | '-' :: rest =>
      match takeDigits rest with
      | ([], _) => none
      | (ds, r) => some (JsonVal.num (-(digitsToNat ds : Int)), r)
  | input =>
      match takeDigits input with
      | ([], _) => none
      | (ds, r) => some (JsonVal.num (digitsToNat ds), r)

mutual
/-- Parse one JSON value; `fuel` bounds recursion depth. -/
def parseVal : Nat → List Char → Option (JsonVal × List Char)
  | 0, _ => none
  | fuel + 1, input =>
    match skipWs input with
    | 'n' :: 'u' :: 'l' :: 'l' :: rest => some (JsonVal.null, rest)
    | 't' :: 'r' :: 'u' :: 'e' :: rest => some (JsonVal.bool true, rest)
    | 'f' :: 'a' :: 'l' :: 's' :: 'e' :: rest => some (JsonVal.bool false, rest)
    | '\"' :: rest => (parseStringBody rest).map fun p => (JsonVal.str p.1, p.2)
    | '[' :: rest =>
        (match skipWs rest with
          | ']' :: r => some (JsonVal.arr [], r)
          | r => (parseArrElems fuel r).map fun p => (JsonVal.arr p.1, p.2))
    | c :: rest =>
        if c = lbrace then
          (match skipWs rest with
            | r =>
              match r with
              | c2 :: r2 =>
                  if c2 = rbrace then some (JsonVal.obj [], r2)
                  else (parseObjFields fuel r).map fun p => (JsonVal.obj p.1, p.2)
              | [] => none)
        else parseNumber (c :: rest)
    | [] => none

/-- Parse comma-separated array elements up to and including `]`. -/
def parseArrElems : Nat → List Char → Option (List JsonVal × List Char)
  | 0, _ => none
  | fuel + 1, input =>
    (parseVal fuel input).bind fun p =>
      match skipWs p.2 with
      | ',' :: r => (parseArrElems fuel r).map fun q => (p.1 :: q.1, q.2)
      | ']' :: r => some ([p.1], r)
      | _ => none

/-- Parse comma-separated object members up to and including the closing
brace. -/
def parseObjFields : Nat → List Char → Option (List (String × JsonVal) × List Char)
  | 0, _ => none
  | fuel + 1, input =>
    match skipWs input with
    | '\"' :: r =>
        (parseStringBody r).bind fun kp =>
          match skipWs kp.2 with
          | ':' :: r2 =>
              (parseVal fuel r2).bind fun vp =>
                (match skipWs vp.2 with
                  | ',' :: r4 =>
                      (parseObjFields fuel r4).map fun q => ((kp.1, vp.1) :: q.1, q.2)
                  | c :: r4 =>
                      if c = rbrace then some ([(kp.1, vp.1)], r4) else none
                  | [] => none)
          | _ => none
    | _ => none
end

/-- `JSON.parse`: `none` models a thrown `SyntaxError`. -/
def jsonParse (s : String) : Option JsonVal :=
  match parseVal (s.length + 2) s.toList with
  | some (v, rest) => if (skipWs rest).isEmpty then some v else none
  | none => none

/-! ## Upstream client (`callWeatherAPI`, `WeatherAPIError`) -/

/-- The error value thrown by `callWeatherAPI` on a non-2xx upstream
response (class `WeatherAPIError`, src/simple-mcp-server.ts:50). -/
structure WeatherAPIError where
  status : Nat
  statusText : String
  body : JsonVal
  message : String

/-- The `WeatherAPIError` constructor: an absent or empty `message`
falls back to the default `WeatherAPI error (status): statusText`. -/
def mkWeatherAPIError (status : Nat) (statusText : String) (body : JsonVal)
    (message : Option String) : WeatherAPIError :=
  let defaultMsg := "WeatherAPI error (" ++ toString status ++ "): " ++ statusText
  { status := status, statusText := statusText, body := body,
    message :=
      match message with
      | some m => if m = "" then defaultMsg else m
      | none => defaultMsg }

/-- An HTTP response from the upstream provider: status, status text and
the body as raw text (`response.text()`; `response.json()` is
`jsonParse` of it). -/
structure FetchResponse where
  status : Nat
  statusText : String
  body : String

/-- `response.ok`: status in the inclusive range 200–299. -/
def FetchResponse.isOk (r : FetchResponse) : Bool :=
  decide (200 ≤ r.status ∧ r.status ≤ 299)

/-- A query-parameter value (`params` entries are strings or numbers;
absent values are `none`). -/
inductive ParamVal where
  | str (s : String)
  | num (n : Int)

/-- `value.toString()` for a query-parameter value. -/
def ParamVal.asString : ParamVal → String
  | ParamVal.str s => s
  | ParamVal.num n => toString n

/-- The query parameters attached to the upstream URL: the `key`
parameter, then every `params` entry that is neither undefined nor null,
coerced to its string form. -/
def buildQueryParams (apiKey : String) (params : List (String × Option ParamVal)) :
    List (String × String) :=
  ("key", apiKey) :: params.filterMap fun kv => kv.2.map fun pv => (kv.1, pv.asString)

/-- A failure of one `callWeatherAPI` invocation: either the thrown
`WeatherAPIError`, or a `SyntaxError` from `response.json()` on a 2xx
response whose body is not valid JSON. -/
inductive CallError where
  | weatherAPIError (e : WeatherAPIError)
  | jsonSyntaxError (msg : String)

/-- The fetch layer: endpoint path and query parameters to the HTTP
response. The network is a parameter of the model. -/
def FetchFn : Type := String → List (String × String) → FetchResponse

/-- `JSON.parse(errorText)` with fallback to a `message` wrapper object
on parse failure (src/simple-mcp-server.ts:82–87). -/
def errorBodyOf (errorText : String) : JsonVal :=
  match jsonParse errorText with
  | some j => j
  | none => JsonVal.obj [("message", JsonVal.str errorText)]

/-- `callWeatherAPI`, continued: dispatch on `response.ok`. -/
def handleFetchResponse (response : FetchResponse) : Except CallError JsonVal :=
  if response.isOk then
    match jsonParse response.body with
    | some j => Except.ok j
    | none => Except.error (CallError.jsonSyntaxError "Unexpected token in JSON")
  else
    Except.error (CallError.weatherAPIError
      (mkWeatherAPIError response.status response.statusText (errorBodyOf response.body)
        (some ("WeatherAPI request failed: " ++ response.body))))

/-- `callWeatherAPI` (src/simple-mcp-server.ts:62): builds the query,
issues the fetch, and on non-2xx reads the body as text, JSON-parses it
(falling back to a `message` wrapper object), and throws a
`WeatherAPIError` with message `WeatherAPI request failed: ` ++ body. -/
def callWeatherAPI (fetch : FetchFn) (endpoint : String) (apiKey : String)
    (params : List (String × Option ParamVal)) : Except CallError JsonVal :=
  handleFetchResponse (fetch endpoint (buildQueryParams apiKey params))

/-! ## JavaScript value helpers -/

/-- Last-wins association lookup (JS object semantics: a later duplicate
key overrides an earlier one). -/
def lookupField : List (String × JsonVal) → String → Option JsonVal
  | [], _ => none
  | (k, v) :: fs, key =>
      match lookupField fs key with
      | some v2 => some v2
      | none => if k = key then some v else none

/-- JS type name of a value, as used in Zod issue messages. -/
def jsTypeName : JsonVal → String
  | JsonVal.str _ => "string"
  | JsonVal.num _ => "number"
  | JsonVal.bool _ => "boolean"
  | JsonVal.null => "null"
  | JsonVal.arr _ => "array"
  | JsonVal.obj _ => "object"

/-- JS property read on a value that is neither `null` nor `undefined`:
own fields of objects, `length` of arrays and strings; anything else is
`undefined` (`none`). -/
def jsGet : JsonVal → String → Option JsonVal
  | JsonVal.obj fs, key => lookupField fs key
  | JsonVal.arr xs, key => if key = "length" then some (JsonVal.num xs.length) else none
  | JsonVal.str s, key => if key = "length" then some (JsonVal.num s.length) else none
  | _, _ => none

/-- JS property access `base.key`: throws a `TypeError` when `base` is
`undefined` or `null`, otherwise yields `jsGet` (possibly `undefined`). -/
def propAccess : Option JsonVal → String → Except String (Option JsonVal)
  | none, key => Except.error ("Cannot read properties of undefined (reading " ++ key ++ ")")
  | some JsonVal.null, key => Except.error ("Cannot read properties of null (reading " ++ key ++ ")")
  | some v, key => Except.ok (jsGet v key)

mutual
/-- JS string coercion as performed by template literals. -/
def jsDisplay : JsonVal → String
  | JsonVal.str s => s
  | JsonVal.num n => toString n
  | JsonVal.bool b => if b then "true" else "false"
  | JsonVal.null => "null"
  | JsonVal.arr xs => String.intercalate "," (jsDisplayList xs)
  | JsonVal.obj _ => "[object Object]"

/-- Array elements under JS `Array.prototype.toString` (null elements
render as the empty string). -/
def jsDisplayList : List JsonVal → List String
  | [] => []
  | JsonVal.null :: xs => "" :: jsDisplayList xs
  | x :: xs => jsDisplay x :: jsDisplayList xs
end

/-- Template-literal rendering of a possibly-undefined value. -/
def displayOpt : Option JsonVal → String
  | none => "undefined"
  | some v => jsDisplay v

/-- JS falsiness of a JSON value (`0`, the empty string, `false`,
`null`). -/
def jsFalsy : JsonVal → Bool
  | JsonVal.num n => n == 0
  | JsonVal.str s => s == ""
  | JsonVal.bool b => !b
  | JsonVal.null => true
  | _ => false

/-! ## Zod schemas (input validation) -/

/-- One Zod validation issue (Zod 4: the source requires Zod 4, where
`z.toJSONSchema` exists). Zod 4 issue objects carry further fields
(`code`, `expected`, …) that the model omits: no observable output of
the program depends on them, because `ZodError.errors` does not exist in
Zod 4 and the issues never reach a response (see `zodErrorData`). -/
structure ZodIssue where
  path : List String
  message : String
  deriving DecidableEq

/-- The `ZodError` thrown by `schema.parse` on invalid input. -/
structure ZodError where
  issues : List ZodIssue
  deriving DecidableEq

/-- Issues contributed by a field result. -/
def exIssues {α : Type} : Except ZodIssue α → List ZodIssue
  | Except.ok _ => []
  | Except.error i => [i]

/-- Validated arguments of `getCurrentWeather`:
`location: string, language?: string`. -/
structure CurrentWeatherArgs where
  location : String
  language : Option String

/-- Check a required string field (Zod 4 reports a missing key as an
invalid-type issue with received `undefined`). -/
def zodReqString (fields : List (String × JsonVal)) (name : String) :
    Except ZodIssue String :=
  match lookupField fields name with
  | none => Except.error ⟨[name], "Invalid input: expected string, received undefined"⟩
  | some (JsonVal.str s) => Except.ok s
  | some v =>
      Except.error ⟨[name], "Invalid input: expected string, received " ++ jsTypeName v⟩

/-- Check an optional string field. -/
def zodOptString (fields : List (String × JsonVal)) (name : String) :
    Except ZodIssue (Option String) :=
  match lookupField fields name with
  | none => Except.ok none
  | some (JsonVal.str s) => Except.ok (some s)
  | some v =>
      Except.error ⟨[name], "Invalid input: expected string, received " ++ jsTypeName v⟩

/-- The root issue raised when the parsed input is not an object. -/
def rootTypeIssue (input : Option JsonVal) : ZodIssue :=
  match input with
  | none => ⟨[], "Invalid input: expected object, received undefined"⟩
  | some v => ⟨[], "Invalid input: expected object, received " ++ jsTypeName v⟩

/-- `getCurrentWeatherSchema.parse` (src/simple-mcp-server.ts:30):
object with required string `location`, optional string `language`;
unknown keys are stripped. -/
def parseCurrentWeatherArgs (input : Option JsonVal) :
    Except ZodError CurrentWeatherArgs :=
  match input with
  | some (JsonVal.obj fields) =>
      match zodReqString fields "location", zodOptString fields "language" with
      | Except.ok l, Except.ok g => Except.ok ⟨l, g⟩
      | locRes, langRes => Except.error ⟨exIssues locRes ++ exIssues langRes⟩
  | other => Except.error ⟨[rootTypeIssue other]⟩

/-- Validated arguments of `getWeatherForecast`:
`location: string, days: int ∈ [1,3] default 3, language?: string`. -/
structure ForecastArgs where
  location : String
  days : Int
  language : Option String

/-- Check the `days` field: integer between 1 and 3, defaulting to 3
when the field is undefined (`z.number().int().min(1).max(3).default(3)`). -/
def zodDaysField (fields : List (String × JsonVal)) : Except ZodIssue Int :=
  match lookupField fields "days" with
  | none => Except.ok 3
  | some (JsonVal.num n) =>
      if n < 1 then Except.error ⟨["days"], "Too small: expected number to be >=1"⟩
      else if 3 < n then Except.error ⟨["days"], "Too big: expected number to be <=3"⟩
      else Except.ok n
  | some v =>
      Except.error ⟨["days"], "Invalid input: expected number, received " ++ jsTypeName v⟩

/-- `getWeatherForecastSchema.parse` applied to an object spread. -/
def parseForecastFields (fields : List (String × JsonVal)) :
    Except ZodError ForecastArgs :=
  match zodReqString fields "location", zodDaysField fields, zodOptString fields "language" with
  | Except.ok l, Except.ok d, Except.ok g => Except.ok ⟨l, d, g⟩
  | locRes, daysRes, langRes =>
      Except.error ⟨exIssues locRes ++ exIssues daysRes ++ exIssues langRes⟩

/-- JS object spread of an arbitrary value: objects contribute their
fields, strings and arrays contribute index-keyed entries (which no
schema field name ever matches), all other values contribute nothing. -/
def spreadFields : Option JsonVal → List (String × JsonVal)
  | some (JsonVal.obj fs) => fs
  | some (JsonVal.str s) =>
      s.toList.enum.map fun p => (toString p.1, JsonVal.str (String.singleton p.2))
  | some (JsonVal.arr xs) => xs.enum.map fun p => (toString p.1, p.2)
  | _ => []

/-- The handler merges the default before validating
(src/simple-mcp-server.ts:181): `\x7b days: 3, ...input \x7d`. -/
def forecastInputWithDefaults (input : Option JsonVal) : JsonVal :=
  JsonVal.obj (("days", JsonVal.num 3) :: spreadFields input)

/-- Default merge followed by `getWeatherForecastSchema.parse`. -/
def forecastValidate (input : Option JsonVal) : Except ZodError ForecastArgs :=
  match forecastInputWithDefaults input with
  | JsonVal.obj fields => parseForecastFields fields
  | other => Except.error ⟨[rootTypeIssue (some other)]⟩

/-- Validated arguments of `searchLocations`: `query: string`. -/
structure SearchArgs where
  query : String

/-- `searchLocationsSchema.parse` (src/simple-mcp-server.ts:41). -/
def parseSearchArgs (input : Option JsonVal) : Except ZodError SearchArgs :=
  match input with
  | some (JsonVal.obj fields) =>
      match zodReqString fields "query" with
      | Except.ok q => Except.ok ⟨q⟩
      | Except.error i => Except.error ⟨[i]⟩
  | other => Except.error ⟨[rootTypeIssue other]⟩

/-! ## Tool handlers -/

/-- A handler failure: the thrown `ZodError`, the thrown
`WeatherAPIError`, or any other exception (carrying its message). -/
inductive HandlerError where
  | zodError (e : ZodError)
  | weatherAPIError (e : WeatherAPIError)
  | other (message : String)

/-- The behaviour of `callWeatherAPI` as seen by the tool handlers:
endpoint, api key and raw params to the outcome. Instantiated with
`callWeatherAPI fetch` for a concrete fetch layer. -/
def UpstreamFn : Type :=
  String → String → List (String × Option ParamVal) → Except CallError JsonVal

/-- Lift an upstream failure into a handler failure (a thrown
`SyntaxError` from `response.json()` is not a `WeatherAPIError` and ends
up in the generic branch). -/
def liftCallError : CallError → HandlerError
  | CallError.weatherAPIError e => HandlerError.weatherAPIError e
  | CallError.jsonSyntaxError m => HandlerError.other m

/-- One `content` entry of type `text`. -/
def textEntry (t : String) : JsonVal :=
  JsonVal.obj [("type", JsonVal.str "text"), ("text", JsonVal.str t)]

/-- The dual-content tool result: the human-readable summary first, then
the raw payload serialized with `JSON.stringify(result, null, 2)`. -/
def toolResult (summary : String) (raw : JsonVal) : JsonVal :=
  JsonVal.obj [("content", JsonVal.arr [textEntry summary, textEntry (jsonStringify raw)])]

/-- The current-weather summary line (src/simple-mcp-server.ts:169),
with JS property-access semantics on the upstream payload. -/
def currentWeatherSummary (result : JsonVal) : Except String String := do
  let location ← propAccess (some result) "location"
  let current ← propAccess (some result) "current"
  let nm ← propAccess location "name"
  let country ← propAccess location "country"
  let condition ← propAccess current "condition"
  let condText ← propAccess condition "text"
  let tempC ← propAccess current "temp_c"
  let tempF ← propAccess current "temp_f"
  let feels ← propAccess current "feelslike_c"
  let humidity ← propAccess current "humidity"
  let windKph ← propAccess current "wind_kph"
  let windDir ← propAccess current "wind_dir"
  pure ("Current weather in " ++ displayOpt nm ++ ", " ++ displayOpt country ++ ": " ++
    displayOpt condText ++ ", " ++ displayOpt tempC ++ "°C (" ++ displayOpt tempF ++
    "°F). Feels like " ++ displayOpt feels ++ "°C. Humidity: " ++ displayOpt humidity ++
    "%. Wind: " ++ displayOpt windKph ++ " km/h " ++ displayOpt windDir ++ ".")

/-- The `getCurrentWeather` tool handler (src/simple-mcp-server.ts:154):
validate, call `/current.json` with `q`/`lang`, format. -/
def getCurrentWeather (upstream : UpstreamFn) (apiKey : String) (input : Option JsonVal) :
    Except HandlerError JsonVal := do
  let v ← (parseCurrentWeatherArgs input).mapError HandlerError.zodError
  let result ← (upstream "/current.json" apiKey
      [("q", some (ParamVal.str v.location)), ("lang", v.language.map ParamVal.str)]).mapError
    liftCallError
  let summary ← (currentWeatherSummary result).mapError HandlerError.other
  pure (toolResult summary result)

/-- One line of the forecast summary
(`date: condition, High: …°C, Low: …°C`). -/
def forecastLine (day : JsonVal) : Except String String := do
  let date ← propAccess (some day) "date"
  let dd ← propAccess (some day) "day"
  let condition ← propAccess dd "condition"
  let condText ← propAccess condition "text"
  let maxT ← propAccess dd "maxtemp_c"
  let minT ← propAccess dd "mintemp_c"
  pure (displayOpt date ++ ": " ++ displayOpt condText ++ ", High: " ++
    displayOpt maxT ++ "°C, Low: " ++ displayOpt minT ++ "°C\n")

/-- All forecast-day lines, in upstream order. -/
def forecastLines : List JsonVal → Except String (List String)
  | [] => Except.ok []
  | d :: ds => do
      let l ← forecastLine d
      let ls ← forecastLines ds
      pure (l :: ls)

/-- The forecast summary (src/simple-mcp-server.ts:194): header plus one
line per forecast day; a non-array `forecastday` makes `forEach` throw. -/
def forecastSummary (days : Int) (result : JsonVal) : Except String String := do
  let location ← propAccess (some result) "location"
  let fc ← propAccess (some result) "forecast"
  let forecastday ← propAccess fc "forecastday"
  let nm ← propAccess location "name"
  let country ← propAccess location "country"
  match forecastday with
  | some (JsonVal.arr ds) => do
      let ls ← forecastLines ds
      pure (toString days ++ "-day forecast for " ++ displayOpt nm ++ ", " ++
        displayOpt country ++ ":\n" ++ String.join ls)
  | _ => Except.error "forecast.forEach is not a function"

/-- The `getWeatherForecast` tool handler (src/simple-mcp-server.ts:179):
apply defaults, validate, call `/forecast.json` with `q`/`days`/`lang`,
format. -/
def getWeatherForecast (upstream : UpstreamFn) (apiKey : String) (input : Option JsonVal) :
    Except HandlerError JsonVal := do
  let v ← (forecastValidate input).mapError HandlerError.zodError
  let result ← (upstream "/forecast.json" apiKey
      [("q", some (ParamVal.str v.location)), ("days", some (ParamVal.num v.days)),
       ("lang", v.language.map ParamVal.str)]).mapError liftCallError
  let summary ← (forecastSummary v.days result).mapError HandlerError.other
  pure (toolResult summary result)

/-- One line of the search summary
(`name, region, country (lat, lon)`). -/
def searchLine (location : JsonVal) : Except String String := do
  let nm ← propAccess (some location) "name"
  let region ← propAccess (some location) "region"
  let country ← propAccess (some location) "country"
  let lat ← propAccess (some location) "lat"
  let lon ← propAccess (some location) "lon"
  pure (displayOpt nm ++ ", " ++ displayOpt region ++ ", " ++ displayOpt country ++
    " (" ++ displayOpt lat ++ ", " ++ displayOpt lon ++ ")\n")

/-- All search-result lines, in upstream order. -/
def searchLines : List JsonVal → Except String (List String)
  | [] => Except.ok []
  | l :: ls => do
      let s ← searchLine l
      let ss ← searchLines ls
      pure (s :: ss)

/-- The search summary (src/simple-mcp-server.ts:221): header with
`result.length`, then one line per match; a non-array result makes
`forEach` throw. -/
def searchSummary (query : String) (result : JsonVal) : Except String String := do
  let len ← propAccess (some result) "length"
  match result with
  | JsonVal.arr xs => do
      let ls ← searchLines xs
      pure ("Found " ++ displayOpt len ++ " locations matching \"" ++ query ++
        "\":\n" ++ String.join ls)
  | _ => Except.error "result.forEach is not a function"

/-- The `searchLocations` tool handler (src/simple-mcp-server.ts:213):
validate, call `/search.json` with `q`, format. -/
def searchLocations (upstream : UpstreamFn) (apiKey : String) (input : Option JsonVal) :
    Except HandlerError JsonVal := do
  let v ← (parseSearchArgs input).mapError HandlerError.zodError
  let result ← (upstream "/search.json" apiKey
      [("q", some (ParamVal.str v.query))]).mapError liftCallError
  let summary ← (searchSummary v.query result).mapError HandlerError.other
  pure (toolResult summary result)

/-! ## JSON-RPC dispatcher -/

/-- A JSON-RPC id: number or string. -/
inductive MCPId where
  | num (n : Int)
  | str (s : String)
  deriving DecidableEq

/-- JS falsiness of an id value (`0` and the empty string). -/
def MCPId.isFalsy : MCPId → Bool
  | MCPId.num n => n == 0
  | MCPId.str s => s == ""

/-- The parsed JSON-RPC request delivered to the dispatcher. -/
structure MCPRequest where
  jsonrpc : String
  id : Option MCPId
  method : String
  params : Option JsonVal

/-- A JSON-RPC error object. -/
structure MCPError where
  code : Int
  message : String
  data : Option JsonVal

/-- The dispatcher response; `result` and `error` are both optional
fields of the TypeScript interface, and `id` is absent when a success
response echoes an absent request id. -/
structure MCPResponse where
  jsonrpc : String
  id : Option MCPId
  result : Option JsonVal
  error : Option MCPError

/-- The JSON-RPC error codes used by the server. -/
def PARSE_ERROR : Int := -32700

/-- Invalid request object. -/
def INVALID_REQUEST : Int := -32600

/-- Method does not exist. -/
def METHOD_NOT_FOUND : Int := -32601

/-- Invalid method parameters. -/
def INVALID_PARAMS : Int := -32602

/-- Internal JSON-RPC error. -/
def INTERNAL_ERROR : Int := -32603

/-- Missing or invalid API key. -/
def UNAUTHORIZED : Int := -32001

/-- API key lacks permissions. -/
def FORBIDDEN : Int := -32002

/-- Resource not found. -/
def NOT_FOUND : Int := -32003

/-- Too many requests. -/
def RATE_LIMITED : Int := -32004

/-- `createErrorResponse` (src/simple-mcp-server.ts:277): any falsy id
(absent, null, 0, empty string) becomes the literal string `unknown`. -/
def createErrorResponse (id : Option MCPId) (code : Int) (message : String)
    (data : Option JsonVal) : MCPResponse :=
  { jsonrpc := "2.0",
    id := some (match id with
      | some v => if v.isFalsy then MCPId.str "unknown" else v
      | none => MCPId.str "unknown"),
    result := none,
    error := some { code := code, message := message, data := data } }

/-- `error.body?.error?.message` with optional chaining. -/
def bodyErrorMessage (body : JsonVal) : Option JsonVal :=
  (jsGet body "error").bind fun inner => jsGet inner "message"

/-- `error.body?.error?.message || error.message`. -/
def detailFor400 (error : WeatherAPIError) : JsonVal :=
  match bodyErrorMessage error.body with
  | some v => if jsFalsy v then JsonVal.str error.message else v
  | none => JsonVal.str error.message

/-- `mapWeatherAPIErrorToJSONRPC` (src/simple-mcp-server.ts:294). -/
def mapWeatherAPIErrorToJSONRPC (error : WeatherAPIError) : MCPError :=
  if error.status = 400 then
    { code := INVALID_PARAMS, message := "Invalid request parameters",
      data := some (JsonVal.obj [("status", JsonVal.num error.status),
        ("detail", detailFor400 error)]) }
  else if error.status = 401 then
    { code := UNAUTHORIZED, message := "Invalid WeatherAPI.com API key",
      data := some (JsonVal.obj [("status", JsonVal.num error.status),
        ("detail", JsonVal.str "Check your API key and make sure it\x27s active")]) }
  else if error.status = 403 then
    { code := FORBIDDEN, message := "WeatherAPI.com access denied",
      data := some (JsonVal.obj [("status", JsonVal.num error.status),
        ("detail", JsonVal.str "Your API key may have exceeded its quota or lacks required permissions")]) }
  else if error.status = 404 then
    { code := NOT_FOUND, message := "Location not found",
      data := some (JsonVal.obj [("status", JsonVal.num error.status),
        ("detail", JsonVal.str "The specified location could not be found")]) }
  else if error.status = 429 then
    { code := RATE_LIMITED, message := "Rate limit exceeded",
      data := some (JsonVal.obj [("status", JsonVal.num error.status),
        ("detail", JsonVal.str "Too many requests to WeatherAPI.com. Please wait before trying again.")]) }
  else
    { code := INTERNAL_ERROR, message := "WeatherAPI.com service error",
      data := some (JsonVal.obj [("status", JsonVal.num error.status),
        ("detail", JsonVal.str error.message)]) }

/-- The closed tool-name enumeration of the registry `allTools`
(src/simple-mcp-server.ts:408). -/
inductive ToolName where
  | getCurrentWeather
  | getWeatherForecast
  | searchLocations
  deriving DecidableEq

/-- A truthy value found by the JS property lookup `allTools[name]`:
either one of the three registered handlers (own properties of the
object literal), or a member inherited from `Object.prototype`. -/
inductive ToolVal where
  | registered (t : ToolName)
  | inherited (name : String)
  deriving DecidableEq

/-- The property names the registry object literal inherits from
`Object.prototype` (all bound to truthy values: built-in functions, and
the `Object.prototype` object itself for `__proto__`). -/
def objectProtoMembers : List String :=
  ["constructor", "hasOwnProperty", "isPrototypeOf", "propertyIsEnumerable",
   "toLocaleString", "toString", "valueOf", "__defineGetter__", "__defineSetter__",
   "__lookupGetter__", "__lookupSetter__", "__proto__"]

/-- `allTools[name]` with JS property-lookup semantics: the name value
is coerced to a property key by ToString (the same coercion as template
literals, `displayOpt`), own keys find the registered handlers, keys of
inherited `Object.prototype` members find those truthy values, and every
other key yields `undefined` (`none`). -/
def allToolsGet (key : String) : Option ToolVal :=
  if key = "getCurrentWeather" then some (ToolVal.registered ToolName.getCurrentWeather)
  else if key = "getWeatherForecast" then some (ToolVal.registered ToolName.getWeatherForecast)
  else if key = "searchLocations" then some (ToolVal.registered ToolName.searchLocations)
  else if key ∈ objectProtoMembers then some (ToolVal.inherited key)
  else none

/-- Dispatch to the matched registered tool handler. -/
def callTool (upstream : UpstreamFn) : ToolName → String → Option JsonVal →
    Except HandlerError JsonVal
  | ToolName.getCurrentWeather => getCurrentWeather upstream
  | ToolName.getWeatherForecast => getWeatherForecast upstream
  | ToolName.searchLocations => searchLocations upstream

/-- `await tool(apiKey, args)` when the lookup found an inherited
`Object.prototype` member. The module is strict-mode (ES module), so the
unbound call receives `this = undefined`:
* `toString` returns `[object Undefined]`;
* `isPrototypeOf` returns `false` (its argument, the api key, is a
  string, never an object);
* `constructor` is the `Object` function, which returns the boxed
  `ToObject(apiKey)` String wrapper — modelled by its JSON-serialized
  form, the key string itself;
* `__proto__` evaluates to the non-callable `Object.prototype` object,
  so the call throws a `TypeError`;
* every other member (`valueOf`, `hasOwnProperty`,
  `propertyIsEnumerable`, `toLocaleString`, the four `__defineGetter__`
  style accessors) performs `ToObject(this)` on `undefined` and throws a
  `TypeError` (exact engine wording varies; only the generic error path
  is observable). -/
def callInherited (name : String) (apiKey : String) (_args : Option JsonVal) :
    Except HandlerError JsonVal :=
  if name = "toString" then Except.ok (JsonVal.str "[object Undefined]")
  else if name = "isPrototypeOf" then Except.ok (JsonVal.bool false)
  else if name = "constructor" then Except.ok (JsonVal.str apiKey)
  else if name = "__proto__" then
    Except.error (HandlerError.other "tool is not a function")
  else Except.error (HandlerError.other "Cannot convert undefined or null to object")

/-- `await tool(apiKey, args)` on whatever truthy value the lookup
found. -/
def invokeTool (upstream : UpstreamFn) : ToolVal → String → Option JsonVal →
    Except HandlerError JsonVal
  | ToolVal.registered t => callTool upstream t
  | ToolVal.inherited name => callInherited name

/-- The pure validation step each handler performs before contacting the
upstream provider. -/
def toolValidate : ToolName → Option JsonVal → Except ZodError Unit
  | ToolName.getCurrentWeather, input => (parseCurrentWeatherArgs input).map fun _ => ()
  | ToolName.getWeatherForecast, input => (forecastValidate input).map fun _ => ()
  | ToolName.searchLocations, input => (parseSearchArgs input).map fun _ => ()

/-- Field read on `request.params || \x7b\x7d` (a non-object or falsy
`params` yields no field). -/
def paramsGet (params : Option JsonVal) (key : String) : Option JsonVal :=
  match params with
  | some (JsonVal.obj fs) => lookupField fs key
  | _ => none

/-- The fixed result of the `initialize` method. -/
def initResult : JsonVal :=
  JsonVal.obj [
    ("protocolVersion", JsonVal.str "2024-11-05"),
    ("capabilities", JsonVal.obj [("tools", JsonVal.obj [("listChanged", JsonVal.bool true)])]),
    ("serverInfo", JsonVal.obj [("name", JsonVal.str "weatherapi-mcp"),
      ("version", JsonVal.str "1.0.0")])]

/-- One published tool descriptor. -/
def toolDescriptor (name title description : String) (schema : JsonVal) : JsonVal :=
  JsonVal.obj [("name", JsonVal.str name), ("title", JsonVal.str title),
    ("description", JsonVal.str description), ("inputSchema", schema)]

/-- The published input schema of `getCurrentWeather` (transcription of
the `zodToMCPSchema` output; not load-bearing for any verified claim). -/
def currentWeatherInputSchema : JsonVal :=
  JsonVal.obj [("type", JsonVal.str "object"),
    ("properties", JsonVal.obj [
      ("location", JsonVal.obj [("type", JsonVal.str "string"),
        ("description", JsonVal.str "Any location: city name, ZIP code, coordinates, or IP address")]),
      ("language", JsonVal.obj [("type", JsonVal.str "string"),
        ("description", JsonVal.str "Language code for weather conditions text (e.g., en, es, fr)")])]),
    ("required", JsonVal.arr [JsonVal.str "location"])]

/-- The published input schema of `getWeatherForecast`. -/
def forecastInputSchema : JsonVal :=
  JsonVal.obj [("type", JsonVal.str "object"),
    ("properties", JsonVal.obj [
      ("location", JsonVal.obj [("type", JsonVal.str "string"),
        ("description", JsonVal.str "Any location: city name, ZIP code, coordinates, or IP address")]),
      ("days", JsonVal.obj [("type", JsonVal.str "integer"),
        ("minimum", JsonVal.num 1), ("maximum", JsonVal.num 3), ("default", JsonVal.num 3),
        ("description", JsonVal.str "Number of forecast days (1-3 for free accounts)")]),
      ("language", JsonVal.obj [("type", JsonVal.str "string"),
        ("description", JsonVal.str "Language code for weather conditions text (e.g., en, es, fr)")])]),
    ("required", JsonVal.arr [JsonVal.str "location"])]

/-- The published input schema of `searchLocations`. -/
def searchInputSchema : JsonVal :=
  JsonVal.obj [("type", JsonVal.str "object"),
    ("properties", JsonVal.obj [
      ("query", JsonVal.obj [("type", JsonVal.str "string"),
        ("description", JsonVal.str "Search query for location names - partial matches work")])]),
    ("required", JsonVal.arr [JsonVal.str "query"])]

/-- The result of the `tools/list` method. -/
def toolsListResult : JsonVal :=
  JsonVal.obj [("tools", JsonVal.arr [
    toolDescriptor "getCurrentWeather" "Get current weather conditions"
      "Get real-time weather for any location - like checking if it\x27s raining right now in Paris"
      currentWeatherInputSchema,
    toolDescriptor "getWeatherForecast" "Get weather forecast"
      "Get weather predictions for the next 1-3 days - perfect for planning weekend trips"
      forecastInputSchema,
    toolDescriptor "searchLocations" "Search for locations"
      "Find the right location name - useful when you\x27re not sure how to spell \"Albuquerque\""
      searchInputSchema])]

/-- `data` of the unknown-tool error: `Object.keys(allTools)`. -/
def availableToolsData : JsonVal :=
  JsonVal.obj [("availableTools", JsonVal.arr [JsonVal.str "getCurrentWeather",
    JsonVal.str "getWeatherForecast", JsonVal.str "searchLocations"])]

/-- `data` of the missing-credential error. -/
def apiKeyHintData : JsonVal :=
  JsonVal.obj [
    ("hint", JsonVal.str "Include your API key in the Authorization header: \"Bearer your-api-key\""),
    ("signup", JsonVal.str "Get a free API key at https://www.weatherapi.com/signup.aspx")]

/-- The hint attached to a validation failure. -/
def validationHint : String :=
  "Check the tool\x27s input schema for required parameters"

/-- `data` of the validation-failure error. Line 485 writes
`validationErrors: error.errors`, but `ZodError.errors` was removed in
Zod 4 (the version this module requires for `z.toJSONSchema`), so the
expression is `undefined`, the field is absent from the serialized
response, and only the hint remains. -/
def zodErrorData : JsonVal :=
  JsonVal.obj [("hint", JsonVal.str validationHint)]

/-- `data` of the unknown-method error. -/
def availableMethodsData : JsonVal :=
  JsonVal.obj [("availableMethods", JsonVal.arr [JsonVal.str "initialize",
    JsonVal.str "tools/list", JsonVal.str "tools/call"])]

/-- `handleMCPRequest` (src/simple-mcp-server.ts:414): the JSON-RPC
dispatcher. The function is total: the outer `catch` of the source can
only fire on a runtime exception inside the dispatcher itself, which the
pure model has no source of. -/
def handleMCPRequest (upstream : UpstreamFn) (request : MCPRequest)
    (apiKey : Option String) : MCPResponse :=
  if request.method = "initialize" then
    { jsonrpc := "2.0", id := request.id, result := some initResult, error := none }
  else if request.method = "tools/list" then
    { jsonrpc := "2.0", id := request.id, result := some toolsListResult, error := none }
  else if request.method = "tools/call" then
    match allToolsGet (displayOpt (paramsGet request.params "name")) with
    | none =>
        createErrorResponse request.id METHOD_NOT_FOUND
          ("Tool \"" ++ displayOpt (paramsGet request.params "name") ++ "\" not found")
          (some availableToolsData)
    | some tv =>
        match apiKey with
        | none =>
            createErrorResponse request.id UNAUTHORIZED
              "WeatherAPI.com API key required" (some apiKeyHintData)
        | some key =>
            match invokeTool upstream tv key (paramsGet request.params "arguments") with
            | Except.ok result =>
                { jsonrpc := "2.0", id := request.id, result := some result, error := none }
            | Except.error (HandlerError.weatherAPIError e) =>
                createErrorResponse request.id (mapWeatherAPIErrorToJSONRPC e).code
                  (mapWeatherAPIErrorToJSONRPC e).message (mapWeatherAPIErrorToJSONRPC e).data
            | Except.error (HandlerError.zodError _e) =>
                createErrorResponse request.id INVALID_PARAMS
                  "Invalid input parameters" (some zodErrorData)
            | Except.error (HandlerError.other msg) =>
                createErrorResponse request.id INTERNAL_ERROR
                  "Internal server error"
                  (some (JsonVal.obj [("detail", JsonVal.str msg)]))
  else
    createErrorResponse request.id METHOD_NOT_FOUND
      ("Method \"" ++ request.method ++ "\" not found")
      (some availableMethodsData)

/-! ## Concrete test fixtures -/

/-- An upstream stub that always succeeds with `null`. -/
def dummyUpstream : UpstreamFn := fun _ _ _ => Except.ok JsonVal.null

/-- An upstream stub with a different observable behaviour, used to
state that certain responses are upstream-independent. -/
def failingUpstream : UpstreamFn := fun _ _ _ =>
  Except.error (CallError.jsonSyntaxError "stub")

/-- A `tools/call` request naming an unknown tool. -/
def unknownToolRequest : MCPRequest :=
  { jsonrpc := "2.0", id := some (MCPId.num 1), method := "tools/call",
    params := some (JsonVal.obj [("name", JsonVal.str "noSuchTool"),
      ("arguments", JsonVal.obj [("location", JsonVal.str "London")])]) }

/-- A well-formed `tools/call` request naming a known tool. -/
def knownToolRequest : MCPRequest :=
  { jsonrpc := "2.0", id := some (MCPId.num 2), method := "tools/call",
    params := some (JsonVal.obj [("name", JsonVal.str "getCurrentWeather"),
      ("arguments", JsonVal.obj [("location", JsonVal.str "London")])]) }

/-- A `tools/call` request for `getWeatherForecast` with `days` out of
range. -/
def badDaysRequest : MCPRequest :=
  { jsonrpc := "2.0", id := some (MCPId.num 3), method := "tools/call",
    params := some (JsonVal.obj [("name", JsonVal.str "getWeatherForecast"),
      ("arguments", JsonVal.obj [("location", JsonVal.str "Paris"),
        ("days", JsonVal.num 5)])]) }

/-- A request with an unsupported top-level method. -/
def unknownMethodRequest : MCPRequest :=
  { jsonrpc := "2.0", id := some (MCPId.num 4), method := "resources/list",
    params := none }

/-- A `tools/call` request for a known tool whose `arguments` value is
absent entirely. -/
def noArgsRequest : MCPRequest :=
  { jsonrpc := "2.0", id := some (MCPId.num 5), method := "tools/call",
    params := some (JsonVal.obj [("name", JsonVal.str "getCurrentWeather")]) }

/-- The `ZodError` raised when `getCurrentWeatherSchema.parse` receives
`undefined`. -/
def undefinedInputZodError : ZodError :=
  ⟨[⟨[], "Invalid input: expected object, received undefined"⟩]⟩

/-- A `tools/call` request naming `toString` — not a registry entry, but
a property the registry object inherits from `Object.prototype`. -/
def toStringRequest : MCPRequest :=
  { jsonrpc := "2.0", id := some (MCPId.num 6), method := "tools/call",
    params := some (JsonVal.obj [("name", JsonVal.str "toString"),
      ("arguments", JsonVal.obj [])]) }

/-- The upstream payload of the C6 scenario. -/
def londonPayload : JsonVal := JsonVal.obj [
  ("location", JsonVal.obj [("name", JsonVal.str "London"), ("country", JsonVal.str "UK")]),
  ("current", JsonVal.obj [
     ("condition", JsonVal.obj [("text", JsonVal.str "Sunny")]),
     ("temp_c", JsonVal.num 20), ("temp_f", JsonVal.num 68), ("feelslike_c", JsonVal.num 19),
     ("humidity", JsonVal.num 50), ("wind_kph", JsonVal.num 10), ("wind_dir", JsonVal.str "N")])]

/-- An upstream stub returning the C6 payload. -/
def londonUpstream : UpstreamFn := fun _ _ _ => Except.ok londonPayload

/-- A fetch stub returning a 500 response with non-JSON body `boom`. -/
def boomFetch : FetchFn := fun _ _ =>
  { status := 500, statusText := "Internal Server Error", body := "boom" }

/-! ## Claim theorems -/

/-- C2: the mapping from an upstream non-2xx HTTP status to a JSON-RPC
error code is total and deterministic: for every `WeatherAPIError`,
status 400 maps to code -32602, 401 to -32001, 403 to -32002, 404 to
-32003, 429 to -32004, and every other status (in particular every
other non-2xx status) to -32603. -/
theorem c2_upstream_status_code_mapping (e : WeatherAPIError) :
    (mapWeatherAPIErrorToJSONRPC e).code =
      if e.status = 400 then -32602
      else if e.status = 401 then -32001
      else if e.status = 403 then -32002
      else if e.status = 404 then -32003
      else if e.status = 429 then -32004
      else -32603 := by
  unfold mapWeatherAPIErrorToJSONRPC
  split_ifs <;> rfl

/-- C7: for every request and optional credential the dispatcher returns
exactly one response (the Lean model of `handleMCPRequest` is a total
function, so it never throws to its caller), and that response carries
exactly one of the `result` and `error` fields: `result` is present iff
`error` is absent. -/
theorem c7_exactly_one_of_result_error (upstream : UpstreamFn) (request : MCPRequest)
    (apiKey : Option String) :
    (handleMCPRequest upstream request apiKey).result.isSome =
      (handleMCPRequest upstream request apiKey).error.isNone := by
  unfold handleMCPRequest
  split_ifs
  · rfl
  · rfl
  · cases hk : allToolsGet (displayOpt (paramsGet request.params "name")) with
    | none => rfl
    | some tv =>
      dsimp only
      cases apiKey with
      | none => rfl
      | some key =>
        dsimp only
        cases hc : invokeTool upstream tv key (paramsGet request.params "arguments") with
        | ok r => rfl
        | error e => cases e <;> rfl
  · rfl

/-- C9: every error response built by the dispatcher replaces a falsy
request id (absent, 0, or the empty string; JSON `null` is modelled as
absence) by the literal string `unknown`, while every success response
echoes the request id unchanged — the fallback applies exactly on the
error path. -/
theorem c9_error_id_fallback (upstream : UpstreamFn) (request : MCPRequest)
    (apiKey : Option String) :
    (handleMCPRequest upstream request apiKey).id =
      (match (handleMCPRequest upstream request apiKey).error with
        | some _ => some (match request.id with
            | some v => if v.isFalsy then MCPId.str "unknown" else v
            | none => MCPId.str "unknown")
        | none => request.id) := by
  unfold handleMCPRequest
  split_ifs
  · rfl
  · rfl
  · cases hk : allToolsGet (displayOpt (paramsGet request.params "name")) with
    | none => rfl
    | some tv =>
      dsimp only
      cases apiKey with
      | none => rfl
      | some key =>
        dsimp only
        cases hc : invokeTool upstream tv key (paramsGet request.params "arguments") with
        | ok r => rfl
        | error e => cases e <;> rfl
  · rfl

/-- C4 counterexample: `toString` names no registry tool, yet the JS
lookup `allTools[name]` finds the inherited truthy
`Object.prototype.toString`, the unknown-tool branch is skipped, and the
strict-mode unbound call returns the success result `[object Undefined]`
— not a -32601 error with `availableTools`, falsifying the claim for
this input. -/
theorem c4_proto_lookup_counterexample :
    (handleMCPRequest dummyUpstream toStringRequest (some "key")).result =
      some (JsonVal.str "[object Undefined]") ∧
    (handleMCPRequest dummyUpstream toStringRequest (some "key")).error = none :=
  ⟨rfl, rfl⟩

/-- C4 (amended): every `tools/call` request whose tool-name value
coerces (JS ToString) to a key that is neither a registry key nor an
inherited `Object.prototype` property name — so the lookup
`allTools[name]` truly finds nothing — is answered with error code
-32601 whose `data.availableTools` is exactly
`getCurrentWeather, getWeatherForecast, searchLocations`. -/
theorem c4_unknown_tool (upstream : UpstreamFn) (request : MCPRequest)
    (apiKey : Option String)
    (hm : request.method = "tools/call")
    (ht : allToolsGet (displayOpt (paramsGet request.params "name")) = none) :
    ((handleMCPRequest upstream request apiKey).error.map fun e => e.code) =
      some METHOD_NOT_FOUND ∧
    ((handleMCPRequest upstream request apiKey).error.bind fun e =>
        e.data.bind fun d => jsGet d "availableTools") =
      some (JsonVal.arr [JsonVal.str "getCurrentWeather",
        JsonVal.str "getWeatherForecast", JsonVal.str "searchLocations"]) := by
  unfold handleMCPRequest
  rw [hm, ht]
  exact ⟨rfl, rfl⟩

/-- C4 witness: the unknown-tool request is answered with -32601 and the
exact three-tool list. -/
theorem c4_unknown_tool_witness :
    ((handleMCPRequest dummyUpstream unknownToolRequest (some "key")).error.map fun e => e.code) =
      some METHOD_NOT_FOUND ∧
    ((handleMCPRequest dummyUpstream unknownToolRequest (some "key")).error.bind fun e =>
        e.data.bind fun d => jsGet d "availableTools") =
      some (JsonVal.arr [JsonVal.str "getCurrentWeather",
        JsonVal.str "getWeatherForecast", JsonVal.str "searchLocations"]) :=
  c4_unknown_tool dummyUpstream unknownToolRequest (some "key") rfl rfl

/-- C5: every request whose method is none of `initialize`, `tools/list`
and `tools/call` is answered with error code -32601 whose
`data.availableMethods` is exactly those three methods. -/
theorem c5_unknown_method (upstream : UpstreamFn) (request : MCPRequest)
    (apiKey : Option String)
    (h1 : request.method ≠ "initialize")
    (h2 : request.method ≠ "tools/list")
    (h3 : request.method ≠ "tools/call") :
    ((handleMCPRequest upstream request apiKey).error.map fun e => e.code) =
      some METHOD_NOT_FOUND ∧
    ((handleMCPRequest upstream request apiKey).error.bind fun e =>
        e.data.bind fun d => jsGet d "availableMethods") =
      some (JsonVal.arr [JsonVal.str "initialize", JsonVal.str "tools/list",
        JsonVal.str "tools/call"]) := by
  unfold handleMCPRequest
  rw [if_neg h1, if_neg h2, if_neg h3]
  exact ⟨rfl, rfl⟩

/-- C5 witness: a `resources/list` request is answered with -32601 and
the exact three-method list. -/
theorem c5_unknown_method_witness :
    ((handleMCPRequest dummyUpstream unknownMethodRequest none).error.map fun e => e.code) =
      some METHOD_NOT_FOUND ∧
    ((handleMCPRequest dummyUpstream unknownMethodRequest none).error.bind fun e =>
        e.data.bind fun d => jsGet d "availableMethods") =
      some (JsonVal.arr [JsonVal.str "initialize", JsonVal.str "tools/list",
        JsonVal.str "tools/call"]) :=
  c5_unknown_method dummyUpstream unknownMethodRequest none
    (by decide) (by decide) (by decide)

/-- C1 counterexample: a `tools/call` request with an unknown tool name
and a missing credential is answered with code -32601 (unknown tool),
not -32001 — the unknown-tool check precedes the credential check, so
the claimed `regardless of whether the supplied tool name is a known
tool` fails. -/
theorem c1_missing_key_counterexample :
    ((handleMCPRequest dummyUpstream unknownToolRequest none).error.map fun e => e.code) =
      some METHOD_NOT_FOUND ∧
    ((handleMCPRequest dummyUpstream unknownToolRequest none).error.map fun e => e.code) ≠
      some UNAUTHORIZED := by
  constructor
  · rfl
  · decide

/-- C1 (amended): for every `tools/call` request naming a KNOWN tool and
missing the credential, the dispatcher returns error -32001 with the
header-format hint, before the tool handler or argument validation ever
runs (the response is independent of the upstream behaviour). The
unknown-tool check precedes the credential check. -/
theorem c1_missing_key_unauthorized (upstream upstream2 : UpstreamFn)
    (request : MCPRequest) (tool : ToolName)
    (hm : request.method = "tools/call")
    (ht : allToolsGet (displayOpt (paramsGet request.params "name")) =
      some (ToolVal.registered tool)) :
    ((handleMCPRequest upstream request none).error.map fun e => e.code) =
      some UNAUTHORIZED ∧
    ((handleMCPRequest upstream request none).error.bind fun e =>
        e.data.bind fun d => jsGet d "hint") =
      some (JsonVal.str "Include your API key in the Authorization header: \"Bearer your-api-key\"") ∧
    handleMCPRequest upstream2 request none = handleMCPRequest upstream request none := by
  unfold handleMCPRequest
  rw [hm, ht]
  exact ⟨rfl, rfl, rfl⟩

/-- C1 witness: a `getCurrentWeather` call without a credential yields
-32001 with the hint, independently of the upstream stub. -/
theorem c1_missing_key_unauthorized_witness :
    ((handleMCPRequest dummyUpstream knownToolRequest none).error.map fun e => e.code) =
      some UNAUTHORIZED ∧
    ((handleMCPRequest dummyUpstream knownToolRequest none).error.bind fun e =>
        e.data.bind fun d => jsGet d "hint") =
      some (JsonVal.str "Include your API key in the Authorization header: \"Bearer your-api-key\"") ∧
    handleMCPRequest failingUpstream knownToolRequest none =
      handleMCPRequest dummyUpstream knownToolRequest none :=
  c1_missing_key_unauthorized dummyUpstream failingUpstream knownToolRequest
    ToolName.getCurrentWeather rfl rfl

/-- C6: on a `tools/call` of `getCurrentWeather` for London with a
credential, when the upstream returns the C6 payload, the result holds
exactly two content entries: first the formatted summary text, second
the full raw payload serialized as text. -/
theorem c6_current_weather_scenario :
    (handleMCPRequest londonUpstream knownToolRequest (some "valid-key")).result =
      some (JsonVal.obj [("content", JsonVal.arr [
        textEntry "Current weather in London, UK: Sunny, 20°C (68°F). Feels like 19°C. Humidity: 50%. Wind: 10 km/h N.",
        textEntry (jsonStringify londonPayload)])]) := by
  rfl

/-- Helper: the upstream-error message built by `callWeatherAPI` is
never the empty string. -/
theorem requestFailedMsg_ne_empty (s : String) :
    "WeatherAPI request failed: " ++ s ≠ "" := by
  intro h
  have h2 := congrArg String.length h
  rw [String.length_append] at h2
  have h3 : ("WeatherAPI request failed: " : String).length = 27 := rfl
  have h4 : ("" : String).length = 0 := rfl
  omega

/-- C8 counterexample: for a 500 response with raw body `boom`, the
thrown error carries message `WeatherAPI request failed: boom`, which
differs from the claimed `request failed: boom` — the claim understates
the message prefix. -/
theorem c8_message_counterexample :
    callWeatherAPI boomFetch "/current.json" "key" [] =
      Except.error (CallError.weatherAPIError
        { status := 500, statusText := "Internal Server Error",
          body := JsonVal.obj [("message", JsonVal.str "boom")],
          message := "WeatherAPI request failed: boom" }) ∧
    ("WeatherAPI request failed: boom" : String) ≠ "request failed: " ++ "boom" := by
  exact ⟨rfl, by decide⟩

/-- C8 (amended): every upstream call yielding a non-2xx response fails
with a `WeatherAPIError` carrying the HTTP status, the status text, the
JSON-parsed body (falling back to a `message` wrapper of the raw text),
and a message equal to `WeatherAPI request failed: ` concatenated with
the raw body text. -/
theorem c8_upstream_error_construction (fetch : FetchFn) (endpoint apiKey : String)
    (params : List (String × Option ParamVal))
    (hne : (fetch endpoint (buildQueryParams apiKey params)).isOk = false) :
    callWeatherAPI fetch endpoint apiKey params =
      Except.error (CallError.weatherAPIError
        { status := (fetch endpoint (buildQueryParams apiKey params)).status,
          statusText := (fetch endpoint (buildQueryParams apiKey params)).statusText,
          body := errorBodyOf (fetch endpoint (buildQueryParams apiKey params)).body,
          message := "WeatherAPI request failed: " ++
            (fetch endpoint (buildQueryParams apiKey params)).body }) := by
  unfold callWeatherAPI handleFetchResponse
  rw [hne]
  simp only [Bool.false_eq_true, if_false, mkWeatherAPIError,
    if_neg (requestFailedMsg_ne_empty (fetch endpoint (buildQueryParams apiKey params)).body)]

/-- C8 witness: the construction at the concrete 500/`boom` response. -/
theorem c8_upstream_error_construction_witness :
    (boomFetch "/current.json" (buildQueryParams "key" [])).isOk = false ∧
    callWeatherAPI boomFetch "/current.json" "key" [] =
      Except.error (CallError.weatherAPIError
        { status := (boomFetch "/current.json" (buildQueryParams "key" [])).status,
          statusText := (boomFetch "/current.json" (buildQueryParams "key" [])).statusText,
          body := errorBodyOf (boomFetch "/current.json" (buildQueryParams "key" [])).body,
          message := "WeatherAPI request failed: " ++
            (boomFetch "/current.json" (buildQueryParams "key" [])).body }) :=
  ⟨rfl, c8_upstream_error_construction boomFetch "/current.json" "key" [] rfl⟩

/-- C3: for every `getWeatherForecast` invocation that omits `days`, the
effective value after default-merge and validation is 3; and whenever
the supplied `days` is a number outside the inclusive range [1,3], the
dispatcher answers with error code -32602. -/
theorem c3_forecast_days_default_and_range :
    (∀ (input : Option JsonVal) (a : ForecastArgs),
      lookupField (spreadFields input) "days" = none →
      forecastValidate input = Except.ok a → a.days = 3) ∧
    (∀ (upstream : UpstreamFn) (request : MCPRequest) (key : String) (d : Int),
      request.method = "tools/call" →
      allToolsGet (displayOpt (paramsGet request.params "name")) =
        some (ToolVal.registered ToolName.getWeatherForecast) →
      lookupField (spreadFields (paramsGet request.params "arguments")) "days" =
        some (JsonVal.num d) →
      (d < 1 ∨ 3 < d) →
      ((handleMCPRequest upstream request (some key)).error.map fun e => e.code) =
        some INVALID_PARAMS) := by
  constructor
  · intro input a hnone hok
    have hdays : zodDaysField (("days", JsonVal.num 3) :: spreadFields input) =
        Except.ok 3 := by
      unfold zodDaysField
      simp only [lookupField]
      rw [hnone]
      norm_num
    unfold forecastValidate forecastInputWithDefaults parseForecastFields at hok
    dsimp only at hok
    rw [hdays] at hok
    cases hl : zodReqString (("days", JsonVal.num 3) :: spreadFields input) "location" with
    | error i =>
      rw [hl] at hok
      cases hg : zodOptString (("days", JsonVal.num 3) :: spreadFields input) "language" with
      | error j => rw [hg] at hok; simp at hok
      | ok g => rw [hg] at hok; simp at hok
    | ok l =>
      rw [hl] at hok
      cases hg : zodOptString (("days", JsonVal.num 3) :: spreadFields input) "language" with
      | error j => rw [hg] at hok; simp at hok
      | ok g =>
        rw [hg] at hok
        injection hok with h
        rw [← h]
  · intro upstream request key d hm ht hd hrange
    obtain ⟨i, hdays⟩ : ∃ i, zodDaysField (("days", JsonVal.num 3) ::
        spreadFields (paramsGet request.params "arguments")) = Except.error i := by
      have hlook : lookupField (("days", JsonVal.num 3) ::
          spreadFields (paramsGet request.params "arguments")) "days" =
          some (JsonVal.num d) := by
        simp only [lookupField]
        rw [hd]
      unfold zodDaysField
      rw [hlook]
      dsimp only
      rcases hrange with h | h
      · exact ⟨_, by rw [if_pos h]⟩
      · exact ⟨_, by rw [if_neg (by omega), if_pos h]⟩
    obtain ⟨e, hval⟩ : ∃ e, forecastValidate (paramsGet request.params "arguments") =
        Except.error e := by
      unfold forecastValidate forecastInputWithDefaults parseForecastFields
      dsimp only
      rw [hdays]
      cases hl : zodReqString (("days", JsonVal.num 3) ::
          spreadFields (paramsGet request.params "arguments")) "location" with
      | error i2 =>
        cases hg : zodOptString (("days", JsonVal.num 3) ::
            spreadFields (paramsGet request.params "arguments")) "language" with
        | error j => exact ⟨_, rfl⟩
        | ok g => exact ⟨_, rfl⟩
      | ok l =>
        cases hg : zodOptString (("days", JsonVal.num 3) ::
            spreadFields (paramsGet request.params "arguments")) "language" with
        | error j => exact ⟨_, rfl⟩
        | ok g => exact ⟨_, rfl⟩
    unfold handleMCPRequest
    rw [hm, ht]
    dsimp only [invokeTool, callTool]
    unfold getWeatherForecast
    rw [hval]
    rfl

/-- C3 witness: omitting `days` yields effective value 3, and `days = 5`
is answered with -32602. -/
theorem c3_forecast_days_witness :
    (ForecastArgs.mk "X" 3 none).days = 3 ∧
    ((handleMCPRequest dummyUpstream badDaysRequest (some "key")).error.map fun e => e.code) =
      some INVALID_PARAMS :=
  ⟨c3_forecast_days_default_and_range.1 (some (JsonVal.obj [("location", JsonVal.str "X")]))
      (ForecastArgs.mk "X" 3 none) rfl rfl,
   c3_forecast_days_default_and_range.2 dummyUpstream badDaysRequest "key" 5 rfl rfl rfl
      (Or.inr (by norm_num))⟩

/-- C10 counterexample: a `getCurrentWeather` call with `arguments`
absent and a credential present is answered with -32602, but its `data`
carries no `validationErrors` field — line 485 reads `error.errors`,
which does not exist in Zod 4 (the version the module requires for
`z.toJSONSchema`), so the field is `undefined` and absent from the
response; the claimed `carrying data.validationErrors` fails. -/
theorem c10_validation_errors_counterexample :
    ((handleMCPRequest dummyUpstream noArgsRequest (some "key")).error.map fun er => er.code) =
      some INVALID_PARAMS ∧
    ((handleMCPRequest dummyUpstream noArgsRequest (some "key")).error.bind fun er =>
        er.data.bind fun d => jsGet d "validationErrors") = none :=
  ⟨rfl, rfl⟩

/-- C10 (amended): for every `tools/call` of a known tool with a
credential, if the schema validation of the `arguments` value for that
tool fails (absent arguments included), the thrown `ZodError` is caught at
the invocation boundary and mapped to error code -32602 carrying a hint
— `data.validationErrors` is absent, because `ZodError.errors` no
longer exists in Zod 4, which the module requires — no exception escapes
to the caller and the response is independent of the upstream behaviour
(no upstream call is made before validation succeeds). -/
theorem c10_validation_failure (upstream upstream2 : UpstreamFn) (request : MCPRequest)
    (key : String) (tool : ToolName) (e : ZodError)
    (hm : request.method = "tools/call")
    (ht : allToolsGet (displayOpt (paramsGet request.params "name")) =
      some (ToolVal.registered tool))
    (hv : toolValidate tool (paramsGet request.params "arguments") = Except.error e) :
    ((handleMCPRequest upstream request (some key)).error.map fun er => er.code) =
      some INVALID_PARAMS ∧
    ((handleMCPRequest upstream request (some key)).error.bind fun er =>
        er.data.bind fun d => jsGet d "hint") = some (JsonVal.str validationHint) ∧
    ((handleMCPRequest upstream request (some key)).error.bind fun er =>
        er.data.bind fun d => jsGet d "validationErrors") = none ∧
    handleMCPRequest upstream2 request (some key) =
      handleMCPRequest upstream request (some key) := by
  cases tool with
  | getCurrentWeather =>
    unfold toolValidate at hv
    dsimp only at hv
    cases hp : parseCurrentWeatherArgs (paramsGet request.params "arguments") with
    | ok v => rw [hp] at hv; simp [Except.map] at hv
    | error e2 =>
      rw [hp] at hv
      simp only [Except.map] at hv
      injection hv with h
      subst h
      unfold handleMCPRequest
      rw [hm, ht]
      dsimp only [invokeTool, callTool]
      unfold getCurrentWeather
      rw [hp]
      exact ⟨rfl, rfl, rfl, rfl⟩
  | getWeatherForecast =>
    unfold toolValidate at hv
    dsimp only at hv
    cases hp : forecastValidate (paramsGet request.params "arguments") with
    | ok v => rw [hp] at hv; simp [Except.map] at hv
    | error e2 =>
      rw [hp] at hv
      simp only [Except.map] at hv
      injection hv with h
      subst h
      unfold handleMCPRequest
      rw [hm, ht]
      dsimp only [invokeTool, callTool]
      unfold getWeatherForecast
      rw [hp]
      exact ⟨rfl, rfl, rfl, rfl⟩
  | searchLocations =>
    unfold toolValidate at hv
    dsimp only at hv
    cases hp : parseSearchArgs (paramsGet request.params "arguments") with
    | ok v => rw [hp] at hv; simp [Except.map] at hv
    | error e2 =>
      rw [hp] at hv
      simp only [Except.map] at hv
      injection hv with h
      subst h
      unfold handleMCPRequest
      rw [hm, ht]
      dsimp only [invokeTool, callTool]
      unfold searchLocations
      rw [hp]
      exact ⟨rfl, rfl, rfl, rfl⟩

/-- C10 witness: calling `getCurrentWeather` with `arguments` absent
yields -32602 with the hint, no `validationErrors` field, and the same
response for two different upstream stubs. -/
theorem c10_validation_failure_witness :
    ((handleMCPRequest dummyUpstream noArgsRequest (some "key")).error.map fun er => er.code) =
      some INVALID_PARAMS ∧
    ((handleMCPRequest dummyUpstream noArgsRequest (some "key")).error.bind fun er =>
        er.data.bind fun d => jsGet d "hint") = some (JsonVal.str validationHint) ∧
    ((handleMCPRequest dummyUpstream noArgsRequest (some "key")).error.bind fun er =>
        er.data.bind fun d => jsGet d "validationErrors") = none ∧
    handleMCPRequest failingUpstream noArgsRequest (some "key") =
      handleMCPRequest dummyUpstream noArgsRequest (some "key") :=
  c10_validation_failure dummyUpstream failingUpstream noArgsRequest "key"
    ToolName.getCurrentWeather undefinedInputZodError rfl rfl rfl

end WeatherMCP
